import Mathlib

/-!
Verification of `pcdscalc/be_lens_calcs.py` (Beryllium lens calculations).

Machine floats are idealised as exact rationals.  Values obtained from the
external x-ray database (`xraydb`), such as the refractive-index decrement
`delta`, are passed to the embedded functions as explicit parameters, since
the external library is out of scope.  Python `None` entries inside a flat
lens-set list are modelled by `Option`.
-/

namespace BeLensCalcs

/-- Python slice `l[::2]` (elements at even indices). -/
def evens {α : Type} : List α → List α
  | [] => []
  | [a] => [a]
  | a :: _ :: t => a :: evens t

/-- Python slice `l[1::2]` (elements at odd indices). -/
def odds {α : Type} : List α → List α
  | [] => []
  | [_] => []
  | _ :: b :: t => b :: odds t

/-- Embedding of `calc_focal_length_for_single_lens`: `radius / 2.0 / delta`,
where `delta` is the decrement returned by the external `get_delta` call. -/
def calc_focal_length_for_single_lens (delta radius : ℚ) : ℚ :=
  radius / 2 / delta

/-- Embedding of `calc_focal_length`.  The argument `lens_set` is the flat
alternating Python list `[num1, radius1, num2, radius2, ...]`; the code pairs
it up via `zip(lens_set[::2], lens_set[1::2])` and skips pairs whose radius is
`None`.  Count entries are always numbers in every call made by this module
(a `None` count would raise in Python); `getD 0` is never hit on `none`
in any configuration considered here. -/
def calc_focal_length (delta : ℚ) (lens_set : List (Option ℚ)) : ℚ :=
  1 / ((evens lens_set).zip (odds lens_set)).foldl
    (fun acc p =>
      match p.2 with
      | none => acc
      | some radius =>
          acc + (p.1.getD 0) / calc_focal_length_for_single_lens delta radius) 0

/-- A list of explicit `(count, radius)` pairs, flattened to the alternating
Python list format with no `None` entries. -/
def flattenPairs : List (ℚ × ℚ) → List (Option ℚ)
  | [] => []
  | p :: t => some p.1 :: some p.2 :: flattenPairs t

theorem evens_flattenPairs (l : List (ℚ × ℚ)) :
    evens (flattenPairs l) = l.map (fun p => some p.1) := by
  induction l with
  | nil => rfl
  | cons p t ih => simp [flattenPairs, evens, ih]

theorem odds_flattenPairs (l : List (ℚ × ℚ)) :
    odds (flattenPairs l) = l.map (fun p => some p.2) := by
  induction l with
  | nil => rfl
  | cons p t ih => simp [flattenPairs, odds, ih]

theorem foldl_add_eq_sum {α : Type} (g : α → ℚ) (l : List α) (a : ℚ) :
    l.foldl (fun acc x => acc + g x) a = a + (l.map g).sum := by
  induction l generalizing a with
  | nil => simp
  | cons x t ih => simp [ih]; ring

/-- The inverse-focal-length accumulation over explicit pairs equals
`2 * delta` times the sum of count/radius ratios (valid also at the junk
values of division by zero). -/
theorem focal_sum_eq (delta : ℚ) (pairs : List (ℚ × ℚ)) :
    pairs.foldl (fun acc p =>
        acc + p.1 / calc_focal_length_for_single_lens delta p.2) 0
      = 2 * delta * (pairs.map (fun p => p.1 / p.2)).sum := by
  rw [foldl_add_eq_sum, zero_add]
  have hpt : ∀ p : ℚ × ℚ,
      p.1 / calc_focal_length_for_single_lens delta p.2
        = 2 * delta * (p.1 / p.2) := by
    intro p
    simp only [calc_focal_length_for_single_lens, div_eq_mul_inv, mul_inv,
      inv_inv]
    ring
  calc (pairs.map (fun p =>
          p.1 / calc_focal_length_for_single_lens delta p.2)).sum
      = (pairs.map (fun p => 2 * delta * (p.1 / p.2))).sum := by
        congr 1
        exact List.map_congr_left fun p _ => hpt p
    _ = 2 * delta * (pairs.map (fun p => p.1 / p.2)).sum := by
        rw [← List.sum_map_mul_left]

/-- Claim C6: for every delta (hence every energy, material and density) and
every lens set of `(count, radius)` pairs with all radii present and a nonzero
sum of count/radius ratios, the focal length of the stack equals the focal
length of a single lens of the effective radius
`R_eff = 1 / sum (count_i / radius_i)`. -/
theorem calc_focal_length_eq_single_lens_of_eff_radius
    (delta : ℚ) (pairs : List (ℚ × ℚ))
    (h : (pairs.map (fun p => p.1 / p.2)).sum ≠ 0) :
    calc_focal_length delta (flattenPairs pairs) =
      calc_focal_length_for_single_lens delta
        (1 / (pairs.map (fun p => p.1 / p.2)).sum) := by
  clear h
  unfold calc_focal_length
  rw [evens_flattenPairs, odds_flattenPairs, List.zip_map', List.foldl_map]
  show 1 / List.foldl (fun (acc : ℚ) (p : ℚ × ℚ) =>
      acc + p.1 / calc_focal_length_for_single_lens delta p.2) 0 pairs
    = calc_focal_length_for_single_lens delta
        (1 / (pairs.map (fun p => p.1 / p.2)).sum)
  rw [focal_sum_eq]
  unfold calc_focal_length_for_single_lens
  simp only [div_eq_mul_inv, mul_inv, inv_inv, one_mul]
  ring

/-- Witness for C6 at a concrete input. -/
theorem calc_focal_length_eq_single_lens_witness :
    ([((1 : ℚ), (2 : ℚ)), (3, 4)].map (fun p => p.1 / p.2)).sum ≠ 0 ∧
      calc_focal_length 5 (flattenPairs [((1 : ℚ), (2 : ℚ)), (3, 4)]) =
        calc_focal_length_for_single_lens 5
          (1 / ([((1 : ℚ), (2 : ℚ)), (3, 4)].map (fun p => p.1 / p.2)).sum) :=
  ⟨by with_unfolding_all decide,
   calc_focal_length_eq_single_lens_of_eff_radius 5 [(1, 2), (3, 4)]
     (by with_unfolding_all decide)⟩

theorem evens_append_of_even {α : Type} :
    ∀ (l l2 : List α), l.length % 2 = 0 → evens (l ++ l2) = evens l ++ evens l2
  | [], _, _ => rfl
  | [_], _, h => by simp at h
  | a :: b :: t, l2, h => by
      have ht : t.length % 2 = 0 := by
        simp only [List.length_cons] at h
        omega
      simp [evens, evens_append_of_even t l2 ht]

theorem odds_append_of_even {α : Type} :
    ∀ (l l2 : List α), l.length % 2 = 0 → odds (l ++ l2) = odds l ++ odds l2
  | [], _, _ => rfl
  | [_], _, h => by simp at h
  | a :: b :: t, l2, h => by
      have ht : t.length % 2 = 0 := by
        simp only [List.length_cons] at h
        omega
      simp [odds, odds_append_of_even t l2 ht]

theorem length_evens_eq_odds_of_even {α : Type} :
    ∀ l : List α, l.length % 2 = 0 → (evens l).length = (odds l).length
  | [], _ => rfl
  | [_], h => by simp at h
  | a :: b :: t, h => by
      have ht : t.length % 2 = 0 := by
        simp only [List.length_cons] at h
        omega
      simp [evens, odds, length_evens_eq_odds_of_even t ht]

/-- Claim C9: appending a `(count, None)` pair (as the flat entries
`[n, None]`) to an even-length lens set leaves `calc_focal_length` unchanged,
because pairs with a `None` radius are skipped.  `calc_lens_set` relies on
this when `eff_rad0` is `None`. -/
theorem calc_focal_length_append_none
    (delta : ℚ) (l : List (Option ℚ)) (n : ℚ) (h : l.length % 2 = 0) :
    calc_focal_length delta (l ++ [some n, none]) = calc_focal_length delta l := by
  unfold calc_focal_length
  rw [evens_append_of_even l [some n, none] h,
    odds_append_of_even l [some n, none] h]
  rw [List.zip_append (length_evens_eq_odds_of_even l h)]
  rw [List.foldl_append]
  rfl

/-- Witness for C9 at a concrete input. -/
theorem calc_focal_length_append_none_witness :
    ([some (2 : ℚ), some 3] : List (Option ℚ)).length % 2 = 0 ∧
      calc_focal_length 1 ([some (2 : ℚ), some 3] ++ [some 5, none]) =
        calc_focal_length 1 [some (2 : ℚ), some 3] :=
  ⟨by decide, calc_focal_length_append_none 1 [some 2, some 3] 5 (by decide)⟩

/-! ### `configure_defaults` (claim C10) -/

/-- The six module-level defaults that `configure_defaults` reassigns. -/
structure Defaults where
  fwhm_unfocused : ℚ
  disk_thickness : ℚ
  apex_distance : ℚ
  distance : ℚ
  material : String
  lens_radii : List ℚ

/-- Python `arg or dflt` for an optional numeric argument: `None`, `0` and
`0.0` are falsy. -/
def pyOrRat (arg : Option ℚ) (dflt : ℚ) : ℚ :=
  match arg with
  | none => dflt
  | some x => if x = 0 then dflt else x

/-- Python `arg or dflt` for an optional string argument: `None` and the
empty string are falsy. -/
def pyOrStr (arg : Option String) (dflt : String) : String :=
  match arg with
  | none => dflt
  | some s => if s = "" then dflt else s

/-- Python `arg or dflt` for an optional list argument: `None` and the empty
list are falsy. -/
def pyOrList (arg : Option (List ℚ)) (dflt : List ℚ) : List ℚ :=
  match arg with
  | none => dflt
  | some l => if l = [] then dflt else l

/-- Embedding of `configure_defaults`: each global is reassigned to
`argument or current_value`. -/
def configure_defaults (fwhm_unfocused disk_thickness apex_distance
    distance : Option ℚ) (material : Option String)
    (lens_radii : Option (List ℚ)) (d : Defaults) : Defaults where
  fwhm_unfocused := pyOrRat fwhm_unfocused d.fwhm_unfocused
  disk_thickness := pyOrRat disk_thickness d.disk_thickness
  apex_distance := pyOrRat apex_distance d.apex_distance
  distance := pyOrRat distance d.distance
  material := pyOrStr material d.material
  lens_radii := pyOrList lens_radii d.lens_radii

/-- Claim C10: `configure_defaults` treats every falsy argument (None, zero,
empty string, empty list) as absent, leaving the corresponding default
unchanged; and a truthy argument replaces only its own default, acting
exactly like pre-setting that default and passing nothing. -/
theorem configure_defaults_falsy_frame :
    (∀ (d : Defaults) (a1 a2 a3 a4 : Option ℚ) (a5 : Option String)
        (a6 : Option (List ℚ)),
      (a1 = none ∨ a1 = some 0) → (a2 = none ∨ a2 = some 0) →
      (a3 = none ∨ a3 = some 0) → (a4 = none ∨ a4 = some 0) →
      (a5 = none ∨ a5 = some "") → (a6 = none ∨ a6 = some []) →
      configure_defaults a1 a2 a3 a4 a5 a6 d = d)
    ∧ (∀ (d : Defaults) (a2 a3 a4 : Option ℚ) (a5 : Option String)
        (a6 : Option (List ℚ)) (x : ℚ), x ≠ 0 →
      configure_defaults (some x) a2 a3 a4 a5 a6 d
        = configure_defaults none a2 a3 a4 a5 a6 { d with fwhm_unfocused := x })
    ∧ (∀ (d : Defaults) (a1 a3 a4 : Option ℚ) (a5 : Option String)
        (a6 : Option (List ℚ)) (x : ℚ), x ≠ 0 →
      configure_defaults a1 (some x) a3 a4 a5 a6 d
        = configure_defaults a1 none a3 a4 a5 a6 { d with disk_thickness := x })
    ∧ (∀ (d : Defaults) (a1 a2 a4 : Option ℚ) (a5 : Option String)
        (a6 : Option (List ℚ)) (x : ℚ), x ≠ 0 →
      configure_defaults a1 a2 (some x) a4 a5 a6 d
        = configure_defaults a1 a2 none a4 a5 a6 { d with apex_distance := x })
    ∧ (∀ (d : Defaults) (a1 a2 a3 : Option ℚ) (a5 : Option String)
        (a6 : Option (List ℚ)) (x : ℚ), x ≠ 0 →
      configure_defaults a1 a2 a3 (some x) a5 a6 d
        = configure_defaults a1 a2 a3 none a5 a6 { d with distance := x })
    ∧ (∀ (d : Defaults) (a1 a2 a3 a4 : Option ℚ)
        (a6 : Option (List ℚ)) (m : String), m ≠ "" →
      configure_defaults a1 a2 a3 a4 (some m) a6 d
        = configure_defaults a1 a2 a3 a4 none a6 { d with material := m })
    ∧ (∀ (d : Defaults) (a1 a2 a3 a4 : Option ℚ) (a5 : Option String)
        (r : List ℚ), r ≠ [] →
      configure_defaults a1 a2 a3 a4 a5 (some r) d
        = configure_defaults a1 a2 a3 a4 a5 none { d with lens_radii := r }) := by
  refine ⟨?_, ?_, ?_, ?_, ?_, ?_, ?_⟩
  · rintro d a1 a2 a3 a4 a5 a6 (rfl | rfl) (rfl | rfl) (rfl | rfl)
      (rfl | rfl) (rfl | rfl) (rfl | rfl) <;>
      simp [configure_defaults, pyOrRat, pyOrStr, pyOrList]
  · intro d a2 a3 a4 a5 a6 x hx
    simp [configure_defaults, pyOrRat, hx]
  · intro d a1 a3 a4 a5 a6 x hx
    simp [configure_defaults, pyOrRat, hx]
  · intro d a1 a2 a4 a5 a6 x hx
    simp [configure_defaults, pyOrRat, hx]
  · intro d a1 a2 a3 a5 a6 x hx
    simp [configure_defaults, pyOrRat, hx]
  · intro d a1 a2 a3 a4 a6 m hm
    simp [configure_defaults, pyOrStr, hm]
  · intro d a1 a2 a3 a4 a5 r hr
    simp [configure_defaults, pyOrList, hr]

/-- Witness for C10 at concrete inputs. -/
theorem configure_defaults_falsy_frame_witness :
    configure_defaults (some 0) none (some 0) none (some "") (some [])
        ⟨1, 2, 3, 4, "Be", [5]⟩ = ⟨1, 2, 3, 4, "Be", [5]⟩
    ∧ configure_defaults (some 7) none none none none none
        ⟨1, 2, 3, 4, "Be", [5]⟩
      = configure_defaults none none none none none none
        ⟨7, 2, 3, 4, "Be", [5]⟩ :=
  ⟨configure_defaults_falsy_frame.1 ⟨1, 2, 3, 4, "Be", [5]⟩
      (some 0) none (some 0) none (some "") (some [])
      (Or.inr rfl) (Or.inl rfl) (Or.inr rfl) (Or.inl rfl)
      (Or.inr rfl) (Or.inr rfl),
   configure_defaults_falsy_frame.2.1 ⟨1, 2, 3, 4, "Be", [5]⟩
      none none none none none 7 (by norm_num)⟩

/-! ### `get_lens_set` (claim C8) -/

/-- Embedding of `get_lens_set` for a file whose JSON content is a list of
lists (so `isinstance(sets[0], list)` holds and the final branch returns
`sets[set_number_top_to_bot - 1]`).  The Python code raises `ValueError` when
`set_number_top_to_bot not in range(1, len(sets))`; the error payload records
the arguments of the message tuple, `(set_number_top_to_bot, len(sets))`, the
template being "please provide a number from 1 to %s" with
`%s = len(sets)`. -/
def get_lens_set (set_number_top_to_bot : ℕ) (sets : List (List ℚ)) :
    Except (ℕ × ℕ) (List ℚ) :=
  if 1 ≤ set_number_top_to_bot ∧ set_number_top_to_bot < sets.length then
    Except.ok (sets.getD (set_number_top_to_bot - 1) [])
  else
    Except.error (set_number_top_to_bot, sets.length)

/-- Claim C8: for a stored list of `k` lens sets, `get_lens_set n` succeeds
exactly for `1 ≤ n ≤ k - 1`; for `n = k` (and `n = 0`, `n > k`) it raises
`ValueError`, even though the raised message advertises the valid numbers as
"from 1 to k" (second payload component). -/
theorem get_lens_set_range_off_by_one (sets : List (List ℚ)) (n : ℕ) :
    ((∃ v, get_lens_set n sets = Except.ok v) ↔ 1 ≤ n ∧ n < sets.length)
    ∧ get_lens_set sets.length sets
        = Except.error (sets.length, sets.length) := by
  constructor
  · unfold get_lens_set
    split_ifs with h
    · exact ⟨fun _ => h, fun _ => ⟨_, rfl⟩⟩
    · constructor
      · rintro ⟨v, hv⟩
        simp at hv
      · exact fun hn => absurd hn h
  · unfold get_lens_set
    rw [if_neg]
    rintro ⟨-, hlt⟩
    exact lt_irrefl _ hlt

/-! ### `set_lens_set_to_file` (claim C7) -/

/-- The backup file name built by `set_lens_set_to_file`:
`filename + str(date.today()) + '.bak'`. -/
def backup_path (filename today : String) : String :=
  filename ++ today ++ ".bak"

/-- Embedding of `set_lens_set_to_file` for a resolved (non-`None`)
filename.  The file system is an association list from names to contents,
newest entry first (`List.lookup` finds the most recent write).  `dumps`
stands for `json.dumps`; `copy_fails` models an exception inside
`shutil.copyfile` other than the source file not existing.  Returns the new
file system paired with whether a backup failure was logged; the exception
is swallowed either way and the JSON write always runs afterwards. -/
def set_lens_set_to_file (dumps : List (List ℚ) → String)
    (list_of_sets : List (List ℚ)) (filename today : String)
    (make_backup : Bool) (copy_fails : Bool)
    (fs : List (String × String)) : List (String × String) × Bool :=
  match make_backup, copy_fails, fs.lookup filename with
  | true, true, _ =>
      ((filename, dumps list_of_sets) :: fs, true)
  | true, false, none =>
      ((filename, dumps list_of_sets) :: fs, true)
  | true, false, some content =>
      ((filename, dumps list_of_sets) ::
        (backup_path filename today, content) :: fs, false)
  | false, _, _ =>
      ((filename, dumps list_of_sets) :: fs, false)

theorem backup_path_ne (filename today : String) :
    backup_path filename today ≠ filename := by
  intro h
  have hlen := congrArg String.length h
  have h4 : (".bak" : String).length = 4 := rfl
  simp only [backup_path, String.length_append, h4] at hlen
  omega

/-- Claim C7: with `make_backup = True`, `set_lens_set_to_file` first
attempts to copy the existing file to `filename + str(date.today()) +
'.bak'` and then writes `json.dumps(list_of_sets)`; a backup failure (for
example a missing source file) is logged and swallowed and the JSON write
still proceeds. -/
theorem set_lens_set_to_file_backup_then_write
    (dumps : List (List ℚ) → String) (list_of_sets : List (List ℚ))
    (filename today : String) (copy_fails : Bool)
    (fs : List (String × String)) :
    (set_lens_set_to_file dumps list_of_sets filename today true copy_fails
        fs).1.lookup filename = some (dumps list_of_sets)
    ∧ (copy_fails = false → ∀ c, fs.lookup filename = some c →
        (set_lens_set_to_file dumps list_of_sets filename today true
            copy_fails fs).1.lookup (backup_path filename today) = some c)
    ∧ ((copy_fails = true ∨ fs.lookup filename = none) →
        (set_lens_set_to_file dumps list_of_sets filename today true
            copy_fails fs).2 = true) := by
  refine ⟨?_, ?_, ?_⟩
  · cases copy_fails <;>
      · unfold set_lens_set_to_file
        cases h : fs.lookup filename <;> simp [List.lookup]
  · rintro rfl c hc
    unfold set_lens_set_to_file
    rw [hc]
    have hne : (backup_path filename today == filename) = false :=
      beq_false_of_ne (backup_path_ne filename today)
    simp [List.lookup, hne]
  · rintro (rfl | hnone)
    · unfold set_lens_set_to_file
      rfl
    · cases copy_fails
      · unfold set_lens_set_to_file
        rw [hnone]
      · unfold set_lens_set_to_file
        rfl

/-- Witness for C7 at concrete inputs. -/
theorem set_lens_set_to_file_backup_then_write_witness :
    (set_lens_set_to_file (fun _ => "J") [[1]] "f" "D" true false
        [("f", "old")]).1.lookup (backup_path "f" "D") = some "old"
    ∧ (set_lens_set_to_file (fun _ => "J") [[1]] "f" "D" true false
        []).2 = true :=
  ⟨(set_lens_set_to_file_backup_then_write (fun _ => "J") [[1]] "f" "D"
      false [("f", "old")]).2.1 rfl "old" (by rfl),
   (set_lens_set_to_file_backup_then_write (fun _ => "J") [[1]] "f" "D"
      false []).2.2 (Or.inr rfl)⟩

/-! ### `find_energy` (claim C5) -/

/-- State of the `find_energy` bisection loop. -/
structure BisectState where
  energy_min : ℚ
  energy_max : ℚ
  energy : ℚ
  abs_diff : ℚ

/-- One iteration of the `find_energy` while-loop body.  `f` is the focal
length as a function of energy, i.e. `calc_focal_length(energy, lens_set,
material, density)` with the energy dependence entering through the external
delta lookup; it is passed as a function parameter.  `Sum.inr e` models the
`logger.error("somehow failed ...")` followed by `break`, after which the
current midpoint energy is returned. -/
def find_energy_step (f : ℚ → ℚ) (distance : ℚ) (st : BisectState) :
    BisectState ⊕ ℚ :=
  if distance < f st.energy_max ∧
      distance > f ((st.energy_max + st.energy_min) / 2) then
    Sum.inl ⟨(st.energy_max + st.energy_min) / 2, st.energy_max,
      (st.energy_max + st.energy_min) / 2,
      |distance - f ((st.energy_max + st.energy_min) / 2)|⟩
  else if distance > f st.energy_min ∧
      distance < f ((st.energy_max + st.energy_min) / 2) then
    Sum.inl ⟨st.energy_min, (st.energy_max + st.energy_min) / 2,
      (st.energy_max + st.energy_min) / 2,
      |distance - f ((st.energy_max + st.energy_min) / 2)|⟩
  else
    Sum.inr ((st.energy_max + st.energy_min) / 2)

/-- Fuel-indexed run of the `while abs_diff > 0.0001` loop; `none` means the
fuel ran out with the loop still running. -/
def find_energy_go (f : ℚ → ℚ) (distance : ℚ) : ℕ → BisectState → Option ℚ
  | 0, _ => none
  | fuel + 1, st =>
      if st.abs_diff > 1/10000 then
        match find_energy_step f distance st with
        | Sum.inl st2 => find_energy_go f distance fuel st2
        | Sum.inr e => some e
      else some st.energy

/-- Embedding of `find_energy`: `energy_min = 1.0`, `energy_max = 24.0`,
initial `energy = (24 + 1) / 2` and `abs_diff = 100`. -/
def find_energy (f : ℚ → ℚ) (distance : ℚ) (fuel : ℕ) : Option ℚ :=
  find_energy_go f distance fuel ⟨1, 24, 25/2, 100⟩

theorem find_energy_go_correct (f : ℚ → ℚ) (d : ℚ)
    (hmono : ∀ x y, 1 ≤ x → x < y → y ≤ 24 → f x < f y) :
    ∀ (fuel : ℕ) (st : BisectState) (e : ℚ),
      1 ≤ st.energy_min → st.energy_min < st.energy_max →
      st.energy_max ≤ 24 → f st.energy_min < d → d < f st.energy_max →
      (st.abs_diff ≤ 1/10000 → st.abs_diff = |d - f st.energy|) →
      find_energy_go f d fuel st = some e → |f e - d| ≤ 1/10000
  | 0, st, e, _, _, _, _, _, _, hrun => by
      simp [find_energy_go] at hrun
  | fuel + 1, st, e, h1, hlt, h24, hlo, hhi, habs, hrun => by
      rw [find_energy_go] at hrun
      by_cases hgt : st.abs_diff > 1/10000
      · rw [if_pos hgt] at hrun
        have hm1 : st.energy_min < (st.energy_max + st.energy_min) / 2 := by
          linarith
        have hm2 : (st.energy_max + st.energy_min) / 2 < st.energy_max := by
          linarith
        have hm1' : 1 ≤ (st.energy_max + st.energy_min) / 2 := by linarith
        have hm24 : (st.energy_max + st.energy_min) / 2 ≤ 24 := by linarith
        rcases lt_trichotomy (f ((st.energy_max + st.energy_min) / 2)) d with
          hfm | hfm | hfm
        · rw [find_energy_step, if_pos ⟨hhi, hfm⟩] at hrun
          exact find_energy_go_correct f d hmono fuel
            ⟨(st.energy_max + st.energy_min) / 2, st.energy_max,
              (st.energy_max + st.energy_min) / 2,
              |d - f ((st.energy_max + st.energy_min) / 2)|⟩ e
            hm1' hm2 h24 hfm hhi (fun _ => rfl) hrun
        · have hc1 : ¬ (d < f st.energy_max ∧
              d > f ((st.energy_max + st.energy_min) / 2)) := by
            rintro ⟨-, hgt2⟩
            rw [hfm] at hgt2
            exact lt_irrefl d hgt2
          have hc2 : ¬ (d > f st.energy_min ∧
              d < f ((st.energy_max + st.energy_min) / 2)) := by
            rintro ⟨-, hlt2⟩
            rw [hfm] at hlt2
            exact lt_irrefl d hlt2
          rw [find_energy_step, if_neg hc1, if_neg hc2] at hrun
          cases hrun
          rw [hfm]
          simp
        · have hc1 : ¬ (d < f st.energy_max ∧
              d > f ((st.energy_max + st.energy_min) / 2)) := by
            rintro ⟨-, hgt2⟩
            exact absurd hfm (not_lt.mpr (le_of_lt hgt2))
          rw [find_energy_step, if_neg hc1, if_pos ⟨hlo, hfm⟩] at hrun
          exact find_energy_go_correct f d hmono fuel
            ⟨st.energy_min, (st.energy_max + st.energy_min) / 2,
              (st.energy_max + st.energy_min) / 2,
              |d - f ((st.energy_max + st.energy_min) / 2)|⟩ e
            h1 hm1 hm24 hlo hfm (fun _ => rfl) hrun
      · rw [if_neg hgt] at hrun
        cases hrun
        have := habs (le_of_not_lt hgt)
        rw [abs_sub_comm] at this
        rw [← this]
        exact le_of_not_lt hgt

/-- Claim C5 (amended): for every focal-length-vs-energy function that is
strictly increasing on `[1, 24]` and whose initial bracket contains the
target distance, IF the bisection loop in `find_energy` terminates (with any
amount of fuel) then the returned energy has a focal length within `1e-4` of
the target distance.  (When neither branch condition holds the loop logs an
error and exits immediately; under these hypotheses that can only happen
when the midpoint focal length equals the distance exactly, so the bound
still holds.)  Unconditional termination, as the original claim states it,
is refuted by `find_energy_divergence_counterexample`. -/
theorem find_energy_tolerance_correct (f : ℚ → ℚ) (d : ℚ) (fuel : ℕ) (e : ℚ)
    (hmono : ∀ x y, 1 ≤ x → x < y → y ≤ 24 → f x < f y)
    (hlo : f 1 < d) (hhi : d < f 24)
    (hrun : find_energy f d fuel = some e) :
    |f e - d| ≤ 1/10000 := by
  refine find_energy_go_correct f d hmono fuel ⟨1, 24, 25/2, 100⟩ e
    le_rfl (by norm_num) le_rfl hlo hhi (fun habs => absurd habs (by norm_num))
    hrun

/-- Witness for the amended C5 at a concrete input (the identity focal
profile brackets `d = 25/2` and the loop exits on the first midpoint). -/
theorem find_energy_tolerance_correct_witness :
    |(fun x : ℚ => x) (25/2) - 25/2| ≤ 1/10000 :=
  find_energy_tolerance_correct (fun x : ℚ => x) (25/2) 1 (25/2)
    (fun _ _ _ hxy _ => hxy) (by norm_num) (by norm_num)
    (by with_unfolding_all decide)

/-- A strictly increasing but discontinuous focal-length-vs-energy profile:
it jumps from 16 to 26 at energy 16, so no energy focuses at distance 20. -/
def focalStepFun (e : ℚ) : ℚ :=
  if e < 16 then e else e + 10

theorem find_energy_go_focalStepFun_none :
    ∀ (fuel : ℕ) (st : BisectState),
      1 ≤ st.energy_min → st.energy_min < 16 → 16 ≤ st.energy_max →
      st.energy_max ≤ 24 → st.abs_diff > 1/10000 →
      find_energy_go focalStepFun 20 fuel st = none
  | 0, _, _, _, _, _, _ => rfl
  | fuel + 1, st, h1, hmin, hmax, h24, hd => by
      rw [find_energy_go, if_pos hd]
      have hlt : st.energy_min < st.energy_max := lt_of_lt_of_le hmin hmax
      have hm1 : st.energy_min < (st.energy_max + st.energy_min) / 2 := by
        linarith
      have hm2 : (st.energy_max + st.energy_min) / 2 < st.energy_max := by
        linarith
      have hfmax : focalStepFun st.energy_max = st.energy_max + 10 := by
        rw [focalStepFun, if_neg (not_lt.mpr hmax)]
      have hfmin : focalStepFun st.energy_min = st.energy_min := by
        rw [focalStepFun, if_pos hmin]
      by_cases hm : (st.energy_max + st.energy_min) / 2 < 16
      · have hfm : focalStepFun ((st.energy_max + st.energy_min) / 2)
            = (st.energy_max + st.energy_min) / 2 := by
          rw [focalStepFun, if_pos hm]
        rw [find_energy_step, if_pos ⟨by rw [hfmax]; linarith,
          by rw [hfm]; linarith⟩]
        refine find_energy_go_focalStepFun_none fuel _ (by linarith) hm hmax
          h24 ?_
        show |(20 : ℚ) - focalStepFun ((st.energy_max + st.energy_min) / 2)|
          > 1/10000
        rw [hfm, abs_of_pos (by linarith)]
        linarith
      · have hfm : focalStepFun ((st.energy_max + st.energy_min) / 2)
            = (st.energy_max + st.energy_min) / 2 + 10 := by
          rw [focalStepFun, if_neg hm]
        have hm16 : (16 : ℚ) ≤ (st.energy_max + st.energy_min) / 2 :=
          le_of_not_lt hm
        have hc1 : ¬ ((20 : ℚ) < focalStepFun st.energy_max ∧
            (20 : ℚ) > focalStepFun ((st.energy_max + st.energy_min) / 2)) := by
          rintro ⟨-, hgt2⟩
          rw [hfm] at hgt2
          linarith
        rw [find_energy_step, if_neg hc1, if_pos ⟨by rw [hfmin]; linarith,
          by rw [hfm]; linarith⟩]
        refine find_energy_go_focalStepFun_none fuel _ h1 hmin hm16
          (by linarith) ?_
        show |(20 : ℚ) - focalStepFun ((st.energy_max + st.energy_min) / 2)|
          > 1/10000
        rw [hfm, abs_of_nonpos (by linarith)]
        linarith

/-- Claim C5 counterexample: `focalStepFun` is strictly increasing on
`[1, 24]` and its initial bracket contains the distance 20
(`focalStepFun 1 = 1 < 20 < 34 = focalStepFun 24`), yet the `find_energy`
bisection loop never terminates: no amount of fuel makes it return. -/
theorem find_energy_divergence_counterexample :
    (∀ x y, 1 ≤ x → x < y → y ≤ 24 → focalStepFun x < focalStepFun y)
    ∧ focalStepFun 1 < 20 ∧ (20 : ℚ) < focalStepFun 24
    ∧ ¬ ∃ (fuel : ℕ) (e : ℚ), find_energy focalStepFun 20 fuel = some e := by
  refine ⟨?_, by norm_num [focalStepFun], by norm_num [focalStepFun], ?_⟩
  · intro x y hx hxy hy
    unfold focalStepFun
    split_ifs with h1 h2 h2
    · exact hxy
    · linarith
    · linarith
    · linarith
  · rintro ⟨fuel, e, hrun⟩
    rw [find_energy, find_energy_go_focalStepFun_none fuel ⟨1, 24, 25/2, 100⟩
      le_rfl (by norm_num) (by norm_num) le_rfl (by norm_num)] at hrun
    exact Option.noConfusion hrun

/-! ### `calc_lens_set` (claims C1 - C4) -/

/-- Round half to even to an integer (the rounding mode of `np.round`). -/
def roundHalfEven (x : ℚ) : ℤ :=
  if x - ⌊x⌋ < 1/2 then ⌊x⌋
  else if 1/2 < x - ⌊x⌋ then ⌊x⌋ + 1
  else if ⌊x⌋ % 2 = 0 then ⌊x⌋ else ⌊x⌋ + 1

/-- `np.round(x, 6)` idealised over the rationals. -/
def round6 (x : ℚ) : ℚ :=
  (roundHalfEven (x * 1000000) : ℚ) / 1000000

/-- `itertools.product(*([list(range(max_each + 1))] * k))`: all count
tuples of length `k` with entries in `0..max_each`, in the order
`itertools.product` produces (leftmost slot slowest). -/
def enumCounts (max_each : ℕ) : ℕ → List (List ℕ)
  | 0 => [[]]
  | k + 1 => (List.range (max_each + 1)).flatMap
      (fun c => (enumCounts max_each k).map (fun t => c :: t))

/-- The accumulated `teff_rad_inv` of `calc_lens_set` for count tuple `num`:
`1 / eff_rad0` (or `0` when `eff_rad0` is None) plus the sum of `tn / tl`
over `zip(num, lens_radii)`. -/
def teff_rad_inv (eff_rad0 : Option ℚ) (lens_radii : List ℚ)
    (num : List ℕ) : ℚ :=
  (match eff_rad0 with
    | none => 0
    | some r0 => 1 / r0)
    + ((num.zip lens_radii).map (fun p => (p.1 : ℚ) / p.2)).sum

/-- The deduplication key `teff_rad = np.round(1 / teff_rad_inv, 6)`. -/
def teff_rad (eff_rad0 : Option ℚ) (lens_radii : List ℚ)
    (num : List ℕ) : ℚ :=
  round6 (1 / teff_rad_inv eff_rad0 lens_radii num)

/-- The flat configuration `lens_set + [1, eff_rad0]` that `calc_lens_set`
passes to `calc_beam_fwhm` and `calc_focal_length` for count tuple `num`. -/
def tuple_config (eff_rad0 : Option ℚ) (lens_radii : List ℚ)
    (num : List ℕ) : List (Option ℚ) :=
  (num.zip lens_radii).flatMap (fun p => [some (p.1 : ℚ), some p.2])
    ++ [some 1, eff_rad0]

/-- The four accumulator lists of the `calc_lens_set` loop. -/
structure LensSearchState where
  sets : List (List ℕ)
  sizes : List ℚ
  eff_rads : List ℚ
  foc_lens : List ℚ
  deriving DecidableEq

/-- The empty accumulators. -/
def initState : LensSearchState := ⟨[], [], [], []⟩

/-- One iteration of the `for num in nums` loop of `calc_lens_set`.
`beam_fwhm` abstracts the closure `calc_beam_fwhm(energy, ., distance,
None, fwhm_unfocused, printsummary=False)`: its value involves pi and square
roots of reals and enters the search only as an opaque per-configuration
score.  `delta` is the decrement used inside `calc_focal_length(energy, .)`.
When the key is already present and the stored tuple has strictly more
elements, only `sets[ind]` is replaced; `sizes` and `foc_lens` keep the
values computed from the first-encountered configuration (this is what the
code does). -/
def lens_set_step (delta : ℚ) (beam_fwhm : List (Option ℚ) → ℚ)
    (eff_rad0 : Option ℚ) (lens_radii : List ℚ) (n_max : ℕ)
    (s : LensSearchState) (num : List ℕ) : LensSearchState :=
  if num.sum ≤ n_max ∧ 0 < num.sum then
    if teff_rad eff_rad0 lens_radii num ∈ s.eff_rads then
      if num.sum <
          (s.sets.getD
            (s.eff_rads.indexOf (teff_rad eff_rad0 lens_radii num)) []).sum then
        { s with
          sets := s.sets.set
            (s.eff_rads.indexOf (teff_rad eff_rad0 lens_radii num)) num }
      else s
    else
      { sets := s.sets ++ [num],
        sizes := s.sizes ++ [beam_fwhm (tuple_config eff_rad0 lens_radii num)],
        eff_rads := s.eff_rads ++ [teff_rad eff_rad0 lens_radii num],
        foc_lens := s.foc_lens ++
          [calc_focal_length delta (tuple_config eff_rad0 lens_radii num)] }
  else s

/-- The full enumeration loop of `calc_lens_set`. -/
def lens_search (delta : ℚ) (beam_fwhm : List (Option ℚ) → ℚ)
    (eff_rad0 : Option ℚ) (lens_radii : List ℚ)
    (n_max max_each : ℕ) : LensSearchState :=
  (enumCounts max_each lens_radii.length).foldl
    (lens_set_step delta beam_fwhm eff_rad0 lens_radii n_max) initState

/-- `np.argsort(keys)`: a permutation of the index range along which the
keys are nondecreasing (insertion sort; no verified claim depends on how
argsort breaks ties). -/
def argsortKeys (keys : List ℚ) : List ℕ :=
  List.insertionSort (fun i j => keys.getD i 0 ≤ keys.getD j 0)
    (List.range keys.length)

/-- Embedding of `calc_lens_set`: runs the enumeration loop and returns the
tuple `(sets, eff_rads, sizes, foc_lens)`, each reindexed by
`argsort(|sizes - size_fwhm|)`. -/
def calc_lens_set (delta : ℚ) (beam_fwhm : List (Option ℚ) → ℚ)
    (size_fwhm : ℚ) (n_max max_each : ℕ) (lens_radii : List ℚ)
    (eff_rad0 : Option ℚ) :
    List (List ℕ) × List ℚ × List ℚ × List ℚ :=
  let s := lens_search delta beam_fwhm eff_rad0 lens_radii n_max max_each
  let indsort := argsortKeys (s.sizes.map (fun x => |x - size_fwhm|))
  (indsort.map (fun i => s.sets.getD i []),
   indsort.map (fun i => s.eff_rads.getD i 0),
   indsort.map (fun i => s.sizes.getD i 0),
   indsort.map (fun i => s.foc_lens.getD i 0))

/-- Lens radii exhibiting a rounded-effective-radius collision between count
tuples of different totals: the radius `1 + 1e-7` and the combination of the
two radii `2` both have net effective radius rounding to `1.0` at 6 decimal
places while differing exactly. -/
def cexRadii : List ℚ := [10000001/10000000, 2, 2]

/-- Concrete instantiation of the opaque beam-size score for the
counterexample run (any function of the configuration works; the violation
below is exhibited on the `foc_lens` array, which is computed by
`calc_focal_length` itself). -/
def cexBF : List (Option ℚ) → ℚ := calc_focal_length (1/2)

theorem cexStep1 :
    lens_set_step (1/2) cexBF none cexRadii 25 initState [0, 0, 0]
      = initState := by
  with_unfolding_all rfl

theorem cexStep2 :
    lens_set_step (1/2) cexBF none cexRadii 25 initState [0, 0, 1]
      = ⟨[[0, 0, 1]], [2], [2], [2]⟩ := by
  with_unfolding_all rfl

theorem cexStep3 :
    lens_set_step (1/2) cexBF none cexRadii 25
      ⟨[[0, 0, 1]], [2], [2], [2]⟩ [0, 1, 0]
      = ⟨[[0, 0, 1]], [2], [2], [2]⟩ := by
  with_unfolding_all rfl

theorem cexStep4 :
    lens_set_step (1/2) cexBF none cexRadii 25
      ⟨[[0, 0, 1]], [2], [2], [2]⟩ [0, 1, 1]
      = ⟨[[0, 0, 1], [0, 1, 1]], [2, 1], [2, 1], [2, 1]⟩ := by
  with_unfolding_all rfl

theorem cexStep5 :
    lens_set_step (1/2) cexBF none cexRadii 25
      ⟨[[0, 0, 1], [0, 1, 1]], [2, 1], [2, 1], [2, 1]⟩ [1, 0, 0]
      = ⟨[[0, 0, 1], [1, 0, 0]], [2, 1], [2, 1], [2, 1]⟩ := by
  with_unfolding_all rfl

theorem cexStep6 :
    lens_set_step (1/2) cexBF none cexRadii 25
      ⟨[[0, 0, 1], [1, 0, 0]], [2, 1], [2, 1], [2, 1]⟩ [1, 0, 1]
      = ⟨[[0, 0, 1], [1, 0, 0], [1, 0, 1]],
         [2, 1, 20000002/30000001],
         [2, 1, 666667/1000000],
         [2, 1, 20000002/30000001]⟩ := by
  with_unfolding_all rfl

set_option maxRecDepth 2000 in
theorem cexStep7 :
    lens_set_step (1/2) cexBF none cexRadii 25
      ⟨[[0, 0, 1], [1, 0, 0], [1, 0, 1]],
       [2, 1, 20000002/30000001],
       [2, 1, 666667/1000000],
       [2, 1, 20000002/30000001]⟩ [1, 1, 0]
      = ⟨[[0, 0, 1], [1, 0, 0], [1, 0, 1]],
         [2, 1, 20000002/30000001],
         [2, 1, 666667/1000000],
         [2, 1, 20000002/30000001]⟩ := by
  have hkey : teff_rad none cexRadii [1, 1, 0] = 666667/1000000 := by
    with_unfolding_all rfl
  rw [lens_set_step, hkey]
  rw [if_pos (show ([1, 1, 0] : List ℕ).sum ≤ 25 ∧
    0 < ([1, 1, 0] : List ℕ).sum by decide)]
  have h1 : (2 : ℚ) ≠ 666667/1000000 := by norm_num
  have h2 : (1 : ℚ) ≠ 666667/1000000 := by norm_num
  have hidx : List.indexOf ((666667 : ℚ)/1000000)
      [(2 : ℚ), 1, 666667/1000000] = 2 := by
    rw [List.indexOf_cons_ne _ h1, List.indexOf_cons_ne _ h2,
      List.indexOf_cons_self]
  rw [if_pos (show ((666667 : ℚ)/1000000) ∈ [(2 : ℚ), 1, 666667/1000000] from
    List.mem_cons_of_mem _ (List.mem_cons_of_mem _ (List.mem_cons_self _ _)))]
  rw [hidx]
  have hns : ¬ (([1, 1, 0] : List ℕ).sum <
      (([[0, 0, 1], [1, 0, 0], [1, 0, 1]] : List (List ℕ)).getD 2 []).sum) := by
    decide
  rw [if_neg hns]

set_option maxRecDepth 2000 in
theorem cexStep8 :
    lens_set_step (1/2) cexBF none cexRadii 25
      ⟨[[0, 0, 1], [1, 0, 0], [1, 0, 1]],
       [2, 1, 20000002/30000001],
       [2, 1, 666667/1000000],
       [2, 1, 20000002/30000001]⟩ [1, 1, 1]
      = ⟨[[0, 0, 1], [1, 0, 0], [1, 0, 1], [1, 1, 1]],
         [2, 1, 20000002/30000001, 10000001/20000001],
         [2, 1, 666667/1000000, 1/2],
         [2, 1, 20000002/30000001, 10000001/20000001]⟩ := by
  with_unfolding_all rfl

set_option maxRecDepth 2000 in
theorem cexSearch :
    lens_search (1/2) cexBF none cexRadii 25 1
      = ⟨[[0, 0, 1], [1, 0, 0], [1, 0, 1], [1, 1, 1]],
         [2, 1, 20000002/30000001, 10000001/20000001],
         [2, 1, 666667/1000000, 1/2],
         [2, 1, 20000002/30000001, 10000001/20000001]⟩ := by
  rw [lens_search]
  rw [show cexRadii.length = 3 from rfl]
  rw [show enumCounts 1 3 =
      [[0, 0, 0], [0, 0, 1], [0, 1, 0], [0, 1, 1],
       [1, 0, 0], [1, 0, 1], [1, 1, 0], [1, 1, 1]] from by decide]
  rw [List.foldl_cons, cexStep1, List.foldl_cons, cexStep2,
    List.foldl_cons, cexStep3, List.foldl_cons, cexStep4,
    List.foldl_cons, cexStep5, List.foldl_cons, cexStep6,
    List.foldl_cons, cexStep7, List.foldl_cons, cexStep8,
    List.foldl_nil]

set_option maxRecDepth 2000 in
theorem cexRet :
    calc_lens_set (1/2) cexBF 0 25 1 cexRadii none
      = ([[1, 1, 1], [1, 0, 1], [1, 0, 0], [0, 0, 1]],
         [1/2, 666667/1000000, 1, 2],
         [10000001/20000001, 20000002/30000001, 1, 2],
         [10000001/20000001, 20000002/30000001, 1, 2]) := by
  simp only [calc_lens_set]
  rw [cexSearch]
  with_unfolding_all rfl

theorem getD_concat_self {α : Type} (l : List α) (a d : α) :
    (l ++ [a]).getD l.length d = a := by
  rw [List.getD_append_right l [a] d l.length le_rfl, Nat.sub_self]
  rfl

theorem getD_mem_of_lt {α : Type} (l : List α) (d : α) {i : ℕ}
    (h : i < l.length) : l.getD i d ∈ l := by
  rw [List.getD_eq_getElem l d h]
  exact List.getElem_mem h

theorem nodup_getD_inj {α : Type} {l : List α} (h : l.Nodup) (d : α) {i j : ℕ}
    (hi : i < l.length) (hj : j < l.length)
    (he : l.getD i d = l.getD j d) : i = j := by
  rw [List.getD_eq_getElem l d hi, List.getD_eq_getElem l d hj] at he
  exact h.getElem_inj_iff.mp he

/-- Membership in the `itertools.product` enumeration is exactly: right
length, every slot at most `max_each`. -/
theorem mem_enumCounts {max_each : ℕ} :
    ∀ {k : ℕ} {t : List ℕ},
      t ∈ enumCounts max_each k ↔ t.length = k ∧ ∀ c ∈ t, c ≤ max_each
  | 0, t => by
      simp only [enumCounts, List.mem_singleton]
      constructor
      · rintro rfl
        exact ⟨rfl, by intro c hc; simp at hc⟩
      · rintro ⟨hlen, -⟩
        exact List.length_eq_zero.mp hlen
  | k + 1, t => by
      simp only [enumCounts, List.mem_flatMap, List.mem_map, List.mem_range]
      constructor
      · rintro ⟨c, hc, t', ht', rfl⟩
        obtain ⟨hlen, hbound⟩ := mem_enumCounts.mp ht'
        refine ⟨by simp [hlen], ?_⟩
        intro x hx
        rcases List.mem_cons.mp hx with rfl | hx'
        · omega
        · exact hbound x hx'
      · rintro ⟨hlen, hbound⟩
        cases t with
        | nil => simp at hlen
        | cons a t' =>
            refine ⟨a, ?_, t', ?_, rfl⟩
            · have := hbound a (List.mem_cons_self a t')
              omega
            · refine mem_enumCounts.mpr ⟨by simpa using hlen, ?_⟩
              intro c hc
              exact hbound c (List.mem_cons_of_mem a hc)

/-- Loop invariant of the `calc_lens_set` enumeration after processing the
prefix `P` of count tuples: the four accumulators have equal length, the
rounded keys are pairwise distinct, every stored tuple is a processed valid
tuple whose key is its stored key and whose total count is minimal among all
processed valid tuples with that key, every processed valid tuple's key is
stored, and every stored score was computed from the configuration of some
processed valid tuple with the stored key. -/
structure SearchInv (delta : ℚ) (beam_fwhm : List (Option ℚ) → ℚ)
    (eff_rad0 : Option ℚ) (lens_radii : List ℚ) (n_max : ℕ)
    (P : List (List ℕ)) (s : LensSearchState) : Prop where
  len_sizes : s.sizes.length = s.sets.length
  len_eff : s.eff_rads.length = s.sets.length
  len_foc : s.foc_lens.length = s.sets.length
  nodup : s.eff_rads.Nodup
  mem_sets : ∀ i, i < s.sets.length →
    s.sets.getD i [] ∈ P ∧ (s.sets.getD i []).sum ≤ n_max ∧
      0 < (s.sets.getD i []).sum ∧
      teff_rad eff_rad0 lens_radii (s.sets.getD i []) = s.eff_rads.getD i 0
  scored : ∀ i, i < s.sets.length → ∃ t, t ∈ P ∧ t.sum ≤ n_max ∧
    0 < t.sum ∧ teff_rad eff_rad0 lens_radii t = s.eff_rads.getD i 0 ∧
    s.sizes.getD i 0 = beam_fwhm (tuple_config eff_rad0 lens_radii t) ∧
    s.foc_lens.getD i 0
      = calc_focal_length delta (tuple_config eff_rad0 lens_radii t)
  covers : ∀ t, t ∈ P → t.sum ≤ n_max → 0 < t.sum →
    teff_rad eff_rad0 lens_radii t ∈ s.eff_rads
  minimal : ∀ i, i < s.sets.length → ∀ t, t ∈ P → t.sum ≤ n_max →
    0 < t.sum → teff_rad eff_rad0 lens_radii t = s.eff_rads.getD i 0 →
    (s.sets.getD i []).sum ≤ t.sum

theorem SearchInv.step {delta : ℚ} {beam_fwhm : List (Option ℚ) → ℚ}
    {eff_rad0 : Option ℚ} {lens_radii : List ℚ} {n_max : ℕ}
    {P : List (List ℕ)} {s : LensSearchState}
    (inv : SearchInv delta beam_fwhm eff_rad0 lens_radii n_max P s)
    (num : List ℕ) :
    SearchInv delta beam_fwhm eff_rad0 lens_radii n_max (P ++ [num])
      (lens_set_step delta beam_fwhm eff_rad0 lens_radii n_max s num) := by
  rw [lens_set_step]
  by_cases hv : num.sum ≤ n_max ∧ 0 < num.sum
  case neg =>
    rw [if_neg hv]
    refine ⟨inv.len_sizes, inv.len_eff, inv.len_foc, inv.nodup,
      ?_, ?_, ?_, ?_⟩
    · intro i hi
      obtain ⟨hmem, h1, h2, h3⟩ := inv.mem_sets i hi
      exact ⟨List.mem_append_left _ hmem, h1, h2, h3⟩
    · intro i hi
      obtain ⟨t, ht, h1, h2, h3, h4, h5⟩ := inv.scored i hi
      exact ⟨t, List.mem_append_left _ ht, h1, h2, h3, h4, h5⟩
    · intro t ht h1 h2
      rcases List.mem_append.mp ht with ht' | ht'
      · exact inv.covers t ht' h1 h2
      · rw [List.mem_singleton] at ht'
        subst ht'
        exact absurd ⟨h1, h2⟩ hv
    · intro i hi t ht h1 h2 h3
      rcases List.mem_append.mp ht with ht' | ht'
      · exact inv.minimal i hi t ht' h1 h2 h3
      · rw [List.mem_singleton] at ht'
        subst ht'
        exact absurd ⟨h1, h2⟩ hv
  case pos =>
    rw [if_pos hv]
    by_cases hmem : teff_rad eff_rad0 lens_radii num ∈ s.eff_rads
    · rw [if_pos hmem]
      have hindlt : s.eff_rads.indexOf (teff_rad eff_rad0 lens_radii num)
          < s.eff_rads.length := List.indexOf_lt_length.mpr hmem
      have hindlt2 : s.eff_rads.indexOf (teff_rad eff_rad0 lens_radii num)
          < s.sets.length := by
        rw [← inv.len_eff]
        exact hindlt
      have heffind : s.eff_rads.getD
          (s.eff_rads.indexOf (teff_rad eff_rad0 lens_radii num)) 0
          = teff_rad eff_rad0 lens_radii num := by
        rw [List.getD_eq_getElem _ _ hindlt]
        exact List.getElem_indexOf hindlt
      by_cases hrepl : num.sum < (s.sets.getD
          (s.eff_rads.indexOf (teff_rad eff_rad0 lens_radii num)) []).sum
      · rw [if_pos hrepl]
        have hlenset : (s.sets.set
            (s.eff_rads.indexOf (teff_rad eff_rad0 lens_radii num))
            num).length = s.sets.length := List.length_set ..
        have hgetset : ∀ {i : ℕ}, i < s.sets.length →
            i ≠ s.eff_rads.indexOf (teff_rad eff_rad0 lens_radii num) →
            (s.sets.set (s.eff_rads.indexOf
              (teff_rad eff_rad0 lens_radii num)) num).getD i []
              = s.sets.getD i [] := by
          intro i hi hne
          rw [List.getD_eq_getElem _ _ (by rw [hlenset]; exact hi),
            List.getElem_set_ne (Ne.symm hne), ← List.getD_eq_getElem]
        have hgetself : (s.sets.set (s.eff_rads.indexOf
            (teff_rad eff_rad0 lens_radii num)) num).getD
            (s.eff_rads.indexOf (teff_rad eff_rad0 lens_radii num)) []
            = num := by
          rw [List.getD_eq_getElem _ _ (by rw [hlenset]; exact hindlt2),
            List.getElem_set_self]
        refine ⟨by rw [hlenset]; exact inv.len_sizes,
          by rw [hlenset]; exact inv.len_eff,
          by rw [hlenset]; exact inv.len_foc, inv.nodup, ?_, ?_, ?_, ?_⟩
        · intro i hi
          rw [hlenset] at hi
          by_cases hieq : i = s.eff_rads.indexOf
              (teff_rad eff_rad0 lens_radii num)
          · subst hieq
            rw [hgetself]
            exact ⟨List.mem_append_right _ (List.mem_singleton_self num),
              hv.1, hv.2, heffind.symm⟩
          · rw [hgetset hi hieq]
            obtain ⟨hmem2, h1, h2, h3⟩ := inv.mem_sets i hi
            exact ⟨List.mem_append_left _ hmem2, h1, h2, h3⟩
        · intro i hi
          rw [hlenset] at hi
          obtain ⟨t, ht, h1, h2, h3, h4, h5⟩ := inv.scored i hi
          exact ⟨t, List.mem_append_left _ ht, h1, h2, h3, h4, h5⟩
        · intro t ht h1 h2
          rcases List.mem_append.mp ht with ht' | ht'
          · exact inv.covers t ht' h1 h2
          · rw [List.mem_singleton] at ht'
            subst ht'
            exact hmem
        · intro i hi t ht h1 h2 h3
          rw [hlenset] at hi
          have h3' : teff_rad eff_rad0 lens_radii t
              = s.eff_rads.getD i 0 := h3
          by_cases hieq : i = s.eff_rads.indexOf
              (teff_rad eff_rad0 lens_radii num)
          · subst hieq
            rw [hgetself]
            rcases List.mem_append.mp ht with ht' | ht'
            · have hold := inv.minimal _ hindlt2 t ht' h1 h2 h3'
              exact le_of_lt (lt_of_lt_of_le hrepl hold)
            · rw [List.mem_singleton] at ht'
              subst ht'
              exact le_rfl
          · rw [hgetset hi hieq]
            rcases List.mem_append.mp ht with ht' | ht'
            · exact inv.minimal i hi t ht' h1 h2 h3'
            · rw [List.mem_singleton] at ht'
              subst ht'
              exact absurd (nodup_getD_inj inv.nodup 0
                (by rw [inv.len_eff]; exact hi) hindlt
                (by rw [heffind, ← h3'])) hieq
      · rw [if_neg hrepl]
        refine ⟨inv.len_sizes, inv.len_eff, inv.len_foc, inv.nodup,
          ?_, ?_, ?_, ?_⟩
        · intro i hi
          obtain ⟨hmem2, h1, h2, h3⟩ := inv.mem_sets i hi
          exact ⟨List.mem_append_left _ hmem2, h1, h2, h3⟩
        · intro i hi
          obtain ⟨t, ht, h1, h2, h3, h4, h5⟩ := inv.scored i hi
          exact ⟨t, List.mem_append_left _ ht, h1, h2, h3, h4, h5⟩
        · intro t ht h1 h2
          rcases List.mem_append.mp ht with ht' | ht'
          · exact inv.covers t ht' h1 h2
          · rw [List.mem_singleton] at ht'
            subst ht'
            exact hmem
        · intro i hi t ht h1 h2 h3
          have h3' : teff_rad eff_rad0 lens_radii t
              = s.eff_rads.getD i 0 := h3
          rcases List.mem_append.mp ht with ht' | ht'
          · exact inv.minimal i hi t ht' h1 h2 h3'
          · rw [List.mem_singleton] at ht'
            subst ht'
            by_cases hieq : i = s.eff_rads.indexOf
                (teff_rad eff_rad0 lens_radii t)
            · subst hieq
              exact le_of_not_lt hrepl
            · exact absurd (nodup_getD_inj inv.nodup 0
                (by rw [inv.len_eff]; exact hi) hindlt
                (by rw [heffind, ← h3'])) hieq
    · rw [if_neg hmem]
      have hke : teff_rad eff_rad0 lens_radii num
          = teff_rad eff_rad0 lens_radii num := rfl
      refine ⟨?_, ?_, ?_, ?_, ?_, ?_, ?_, ?_⟩
      · simp only [List.length_append, List.length_singleton]
        rw [inv.len_sizes]
      · simp only [List.length_append, List.length_singleton]
        rw [inv.len_eff]
      · simp only [List.length_append, List.length_singleton]
        rw [inv.len_foc]
      · refine List.nodup_append.mpr
          ⟨inv.nodup, List.nodup_singleton _, ?_⟩
        intro a ha hb
        rw [List.mem_singleton] at hb
        subst hb
        exact hmem ha
      · intro i hi
        simp only [List.length_append, List.length_singleton] at hi
        by_cases hlt : i < s.sets.length
        · rw [List.getD_append s.sets [num] [] i hlt,
            List.getD_append s.eff_rads _ 0 i (by rw [inv.len_eff]; exact hlt)]
          obtain ⟨hmem2, h1, h2, h3⟩ := inv.mem_sets i hlt
          exact ⟨List.mem_append_left _ hmem2, h1, h2, h3⟩
        · have hieq : i = s.sets.length := by omega
          subst hieq
          rw [getD_concat_self]
          have hie : s.sets.length = s.eff_rads.length := inv.len_eff.symm
          rw [hie, getD_concat_self]
          exact ⟨List.mem_append_right _ (List.mem_singleton_self num),
            hv.1, hv.2, rfl⟩
      · intro i hi
        simp only [List.length_append, List.length_singleton] at hi
        by_cases hlt : i < s.sets.length
        · obtain ⟨t, ht, h1, h2, h3, h4, h5⟩ := inv.scored i hlt
          refine ⟨t, List.mem_append_left _ ht, h1, h2, ?_, ?_, ?_⟩
          · rw [List.getD_append s.eff_rads _ 0 i
              (by rw [inv.len_eff]; exact hlt)]
            exact h3
          · rw [List.getD_append s.sizes _ 0 i
              (by rw [inv.len_sizes]; exact hlt)]
            exact h4
          · rw [List.getD_append s.foc_lens _ 0 i
              (by rw [inv.len_foc]; exact hlt)]
            exact h5
        · have hieq : i = s.sets.length := by omega
          subst hieq
          refine ⟨num, List.mem_append_right _ (List.mem_singleton_self num),
            hv.1, hv.2, ?_, ?_, ?_⟩
          · have hie : s.sets.length = s.eff_rads.length := inv.len_eff.symm
            rw [hie, getD_concat_self]
          · have hie : s.sets.length = s.sizes.length := inv.len_sizes.symm
            rw [hie, getD_concat_self]
          · have hie : s.sets.length = s.foc_lens.length := inv.len_foc.symm
            rw [hie, getD_concat_self]
      · intro t ht h1 h2
        rcases List.mem_append.mp ht with ht' | ht'
        · exact List.mem_append_left _ (inv.covers t ht' h1 h2)
        · rw [List.mem_singleton] at ht'
          subst ht'
          exact List.mem_append_right _ (List.mem_singleton_self _)
      · intro i hi t ht h1 h2 h3
        simp only [List.length_append, List.length_singleton] at hi
        by_cases hlt : i < s.sets.length
        · rw [List.getD_append s.sets [num] [] i hlt]
          rw [List.getD_append s.eff_rads _ 0 i
            (by rw [inv.len_eff]; exact hlt)] at h3
          rcases List.mem_append.mp ht with ht' | ht'
          · exact inv.minimal i hlt t ht' h1 h2 h3
          · rw [List.mem_singleton] at ht'
            subst ht'
            have hmem3 : teff_rad eff_rad0 lens_radii t ∈ s.eff_rads := by
              rw [h3]
              exact getD_mem_of_lt s.eff_rads 0 (by rw [inv.len_eff]; exact hlt)
            exact absurd hmem3 hmem
        · have hieq : i = s.sets.length := by omega
          subst hieq
          rw [getD_concat_self]
          have hie : s.sets.length = s.eff_rads.length := inv.len_eff.symm
          rw [hie, getD_concat_self] at h3
          rcases List.mem_append.mp ht with ht' | ht'
          · have hmem3 := inv.covers t ht' h1 h2
            rw [h3] at hmem3
            exact absurd hmem3 hmem
          · rw [List.mem_singleton] at ht'
            subst ht'
            exact le_rfl

theorem searchInv_init (delta : ℚ) (beam_fwhm : List (Option ℚ) → ℚ)
    (eff_rad0 : Option ℚ) (lens_radii : List ℚ) (n_max : ℕ) :
    SearchInv delta beam_fwhm eff_rad0 lens_radii n_max [] initState := by
  refine ⟨rfl, rfl, rfl, List.nodup_nil, ?_, ?_, ?_, ?_⟩
  · intro i hi
    simp [initState] at hi
  · intro i hi
    simp [initState] at hi
  · intro t ht _ _
    simp at ht
  · intro i hi
    simp [initState] at hi

theorem searchInv_foldl {delta : ℚ} {beam_fwhm : List (Option ℚ) → ℚ}
    {eff_rad0 : Option ℚ} {lens_radii : List ℚ} {n_max : ℕ} :
    ∀ (l P : List (List ℕ)) (s : LensSearchState),
      SearchInv delta beam_fwhm eff_rad0 lens_radii n_max P s →
      SearchInv delta beam_fwhm eff_rad0 lens_radii n_max (P ++ l)
        (l.foldl (lens_set_step delta beam_fwhm eff_rad0 lens_radii n_max) s)
  | [], P, s, inv => by simpa using inv
  | a :: l, P, s, inv => by
      have h2 := searchInv_foldl l (P ++ [a]) _ (inv.step a)
      rw [List.foldl_cons]
      have he : P ++ [a] ++ l = P ++ a :: l := by simp
      rw [he] at h2
      exact h2

theorem searchInv_lens_search (delta : ℚ)
    (beam_fwhm : List (Option ℚ) → ℚ) (eff_rad0 : Option ℚ)
    (lens_radii : List ℚ) (n_max max_each : ℕ) :
    SearchInv delta beam_fwhm eff_rad0 lens_radii n_max
      (enumCounts max_each lens_radii.length)
      (lens_search delta beam_fwhm eff_rad0 lens_radii n_max max_each) := by
  have h := searchInv_foldl (enumCounts max_each lens_radii.length) []
    initState (searchInv_init delta beam_fwhm eff_rad0 lens_radii n_max)
  rw [List.nil_append] at h
  exact h

theorem argsortKeys_perm (keys : List ℚ) :
    (argsortKeys keys).Perm (List.range keys.length) :=
  List.perm_insertionSort _ _

theorem argsortKeys_pairwise (keys : List ℚ) :
    List.Pairwise (fun i j => keys.getD i 0 ≤ keys.getD j 0)
      (argsortKeys keys) := by
  haveI ht : IsTotal ℕ (fun i j => keys.getD i 0 ≤ keys.getD j 0) :=
    ⟨fun a b => le_total _ _⟩
  haveI htr : IsTrans ℕ (fun i j => keys.getD i 0 ≤ keys.getD j 0) :=
    ⟨fun a b c hab hbc => le_trans hab hbc⟩
  exact List.sorted_insertionSort _ _

theorem argsortKeys_mem_lt (keys : List ℚ) {i : ℕ}
    (h : i ∈ argsortKeys keys) : i < keys.length := by
  have h2 := (argsortKeys_perm keys).mem_iff.mp h
  simpa using h2

theorem map_getD_range {α : Type} (l : List α) (d : α) :
    (List.range l.length).map (fun i => l.getD i d) = l := by
  apply List.ext_getElem (by simp)
  intro n h1 h2
  simp only [List.getElem_map, List.getElem_range]
  exact List.getD_eq_getElem l d h2

theorem getD_map_lt {α β : Type} (f : α → β) (l : List α) (d : α) (d2 : β)
    {i : ℕ} (h : i < l.length) : (l.map f).getD i d2 = f (l.getD i d) := by
  rw [List.getD_eq_getElem _ _ (by simpa using h), List.getElem_map,
    List.getD_eq_getElem l d h]

theorem calc_lens_set_eq (delta : ℚ) (beam_fwhm : List (Option ℚ) → ℚ)
    (size_fwhm : ℚ) (n_max max_each : ℕ) (lens_radii : List ℚ)
    (eff_rad0 : Option ℚ) :
    calc_lens_set delta beam_fwhm size_fwhm n_max max_each lens_radii eff_rad0
      = ((argsortKeys ((lens_search delta beam_fwhm eff_rad0 lens_radii
              n_max max_each).sizes.map (fun x => |x - size_fwhm|))).map
            (fun i => (lens_search delta beam_fwhm eff_rad0 lens_radii
              n_max max_each).sets.getD i []),
         (argsortKeys ((lens_search delta beam_fwhm eff_rad0 lens_radii
              n_max max_each).sizes.map (fun x => |x - size_fwhm|))).map
            (fun i => (lens_search delta beam_fwhm eff_rad0 lens_radii
              n_max max_each).eff_rads.getD i 0),
         (argsortKeys ((lens_search delta beam_fwhm eff_rad0 lens_radii
              n_max max_each).sizes.map (fun x => |x - size_fwhm|))).map
            (fun i => (lens_search delta beam_fwhm eff_rad0 lens_radii
              n_max max_each).sizes.getD i 0),
         (argsortKeys ((lens_search delta beam_fwhm eff_rad0 lens_radii
              n_max max_each).sizes.map (fun x => |x - size_fwhm|))).map
            (fun i => (lens_search delta beam_fwhm eff_rad0 lens_radii
              n_max max_each).foc_lens.getD i 0)) := rfl

theorem calc_lens_set_index_spec (delta : ℚ)
    (beam_fwhm : List (Option ℚ) → ℚ) (size_fwhm : ℚ)
    (n_max max_each : ℕ) (lens_radii : List ℚ) (eff_rad0 : Option ℚ) :
    ∀ j, j < (calc_lens_set delta beam_fwhm size_fwhm n_max max_each
        lens_radii eff_rad0).1.length →
    ∃ i, i < (lens_search delta beam_fwhm eff_rad0 lens_radii n_max
        max_each).sets.length ∧
      (calc_lens_set delta beam_fwhm size_fwhm n_max max_each lens_radii
          eff_rad0).1.getD j []
        = (lens_search delta beam_fwhm eff_rad0 lens_radii n_max
            max_each).sets.getD i [] ∧
      (calc_lens_set delta beam_fwhm size_fwhm n_max max_each lens_radii
          eff_rad0).2.1.getD j 0
        = (lens_search delta beam_fwhm eff_rad0 lens_radii n_max
            max_each).eff_rads.getD i 0 ∧
      (calc_lens_set delta beam_fwhm size_fwhm n_max max_each lens_radii
          eff_rad0).2.2.1.getD j 0
        = (lens_search delta beam_fwhm eff_rad0 lens_radii n_max
            max_each).sizes.getD i 0 ∧
      (calc_lens_set delta beam_fwhm size_fwhm n_max max_each lens_radii
          eff_rad0).2.2.2.getD j 0
        = (lens_search delta beam_fwhm eff_rad0 lens_radii n_max
            max_each).foc_lens.getD i 0 := by
  intro j hj
  have inv := searchInv_lens_search delta beam_fwhm eff_rad0 lens_radii
    n_max max_each
  rw [calc_lens_set_eq] at hj
  simp only [List.length_map] at hj
  have hjp : j < (argsortKeys ((lens_search delta beam_fwhm eff_rad0
      lens_radii n_max max_each).sizes.map
        (fun x => |x - size_fwhm|))).length := hj
  refine ⟨(argsortKeys ((lens_search delta beam_fwhm eff_rad0 lens_radii
      n_max max_each).sizes.map (fun x => |x - size_fwhm|))).getD j 0,
    ?_, ?_, ?_, ?_, ?_⟩
  · have hmem := getD_mem_of_lt _ 0 hjp
    have hlt := argsortKeys_mem_lt _ hmem
    simp only [List.length_map] at hlt
    rw [← inv.len_sizes]
    exact hlt
  · rw [calc_lens_set_eq]
    exact getD_map_lt _ _ 0 [] hjp
  · rw [calc_lens_set_eq]
    exact getD_map_lt _ _ 0 0 hjp
  · rw [calc_lens_set_eq]
    exact getD_map_lt _ _ 0 0 hjp
  · rw [calc_lens_set_eq]
    exact getD_map_lt _ _ 0 0 hjp

theorem calc_lens_set_eff_perm (delta : ℚ)
    (beam_fwhm : List (Option ℚ) → ℚ) (size_fwhm : ℚ)
    (n_max max_each : ℕ) (lens_radii : List ℚ) (eff_rad0 : Option ℚ) :
    (calc_lens_set delta beam_fwhm size_fwhm n_max max_each lens_radii
        eff_rad0).2.1.Perm
      (lens_search delta beam_fwhm eff_rad0 lens_radii n_max
        max_each).eff_rads := by
  have inv := searchInv_lens_search delta beam_fwhm eff_rad0 lens_radii
    n_max max_each
  rw [calc_lens_set_eq]
  have hp := (argsortKeys_perm ((lens_search delta beam_fwhm eff_rad0
      lens_radii n_max max_each).sizes.map (fun x => |x - size_fwhm|))).map
    (fun i => (lens_search delta beam_fwhm eff_rad0 lens_radii n_max
      max_each).eff_rads.getD i 0)
  refine hp.trans ?_
  have hlen : ((lens_search delta beam_fwhm eff_rad0 lens_radii n_max
      max_each).sizes.map (fun x => |x - size_fwhm|)).length
      = (lens_search delta beam_fwhm eff_rad0 lens_radii n_max
        max_each).eff_rads.length := by
    rw [List.length_map, inv.len_sizes, inv.len_eff]
  rw [hlen, map_getD_range]

/-- Claim C1: among all enumerated count tuples satisfying the caps, grouped
by net effective radius rounded to 6 decimal places, `calc_lens_set` retains
exactly one candidate per group (the returned `eff_rads` are pairwise
distinct and cover every enumerated valid tuple's key), and the retained
candidate is itself an enumerated valid tuple with that key whose total
number of lens elements is minimal in its group. -/
theorem calc_lens_set_dedup_minimal (delta : ℚ)
    (beam_fwhm : List (Option ℚ) → ℚ) (size_fwhm : ℚ)
    (n_max max_each : ℕ) (lens_radii : List ℚ) (eff_rad0 : Option ℚ) :
    (calc_lens_set delta beam_fwhm size_fwhm n_max max_each lens_radii
        eff_rad0).2.1.Nodup
    ∧ (∀ t, t ∈ enumCounts max_each lens_radii.length → t.sum ≤ n_max →
        0 < t.sum → teff_rad eff_rad0 lens_radii t
          ∈ (calc_lens_set delta beam_fwhm size_fwhm n_max max_each
              lens_radii eff_rad0).2.1)
    ∧ (∀ j, j < (calc_lens_set delta beam_fwhm size_fwhm n_max max_each
          lens_radii eff_rad0).1.length →
        (calc_lens_set delta beam_fwhm size_fwhm n_max max_each lens_radii
            eff_rad0).1.getD j [] ∈ enumCounts max_each lens_radii.length
        ∧ ((calc_lens_set delta beam_fwhm size_fwhm n_max max_each
            lens_radii eff_rad0).1.getD j []).sum ≤ n_max
        ∧ 0 < ((calc_lens_set delta beam_fwhm size_fwhm n_max max_each
            lens_radii eff_rad0).1.getD j []).sum
        ∧ teff_rad eff_rad0 lens_radii ((calc_lens_set delta beam_fwhm
            size_fwhm n_max max_each lens_radii eff_rad0).1.getD j [])
          = (calc_lens_set delta beam_fwhm size_fwhm n_max max_each
              lens_radii eff_rad0).2.1.getD j 0
        ∧ ∀ t, t ∈ enumCounts max_each lens_radii.length → t.sum ≤ n_max →
            0 < t.sum →
            teff_rad eff_rad0 lens_radii t
              = (calc_lens_set delta beam_fwhm size_fwhm n_max max_each
                  lens_radii eff_rad0).2.1.getD j 0 →
            ((calc_lens_set delta beam_fwhm size_fwhm n_max max_each
                lens_radii eff_rad0).1.getD j []).sum ≤ t.sum) := by
  have inv := searchInv_lens_search delta beam_fwhm eff_rad0 lens_radii
    n_max max_each
  have hperm := calc_lens_set_eff_perm delta beam_fwhm size_fwhm n_max
    max_each lens_radii eff_rad0
  refine ⟨hperm.nodup_iff.mpr inv.nodup, ?_, ?_⟩
  · intro t ht h1 h2
    exact hperm.mem_iff.mpr (inv.covers t ht h1 h2)
  · intro j hj
    obtain ⟨i, hi, he1, he2, he3, he4⟩ := calc_lens_set_index_spec delta
      beam_fwhm size_fwhm n_max max_each lens_radii eff_rad0 j hj
    obtain ⟨hmem, hsum1, hsum2, hkey⟩ := inv.mem_sets i hi
    rw [he1, he2]
    refine ⟨hmem, hsum1, hsum2, hkey, ?_⟩
    intro t ht h1 h2 h3
    exact inv.minimal i hi t ht h1 h2 h3

/-- Witness for C1 at a concrete input. -/
theorem calc_lens_set_dedup_minimal_witness :
    teff_rad none [(1 : ℚ), 2] [1, 0]
      ∈ (calc_lens_set (1/2) (calc_focal_length (1/2)) 0 25 1
          [(1 : ℚ), 2] none).2.1 :=
  (calc_lens_set_dedup_minimal (1/2) (calc_focal_length (1/2)) 0 25 1
      [(1 : ℚ), 2] none).2.1 [1, 0] (by decide) (by decide) (by decide)

/-- Claim C2 (amended): every returned entry of `calc_lens_set` is scored
(reported size and focal length) against the configuration of SOME
enumerated cap-satisfying tuple whose rounded effective radius equals the
entry's `eff_rad` (namely the first-encountered one), but not necessarily
against the retained tuple's own configuration: when a later tuple with
fewer lenses replaces `sets[ind]`, the scores are not recomputed (see
`calc_lens_set_stale_score_counterexample`). -/
theorem calc_lens_set_scored_same_key (delta : ℚ)
    (beam_fwhm : List (Option ℚ) → ℚ) (size_fwhm : ℚ)
    (n_max max_each : ℕ) (lens_radii : List ℚ) (eff_rad0 : Option ℚ) :
    ∀ j, j < (calc_lens_set delta beam_fwhm size_fwhm n_max max_each
        lens_radii eff_rad0).1.length →
      ∃ t, t ∈ enumCounts max_each lens_radii.length ∧ t.sum ≤ n_max ∧
        0 < t.sum ∧
        teff_rad eff_rad0 lens_radii t
          = (calc_lens_set delta beam_fwhm size_fwhm n_max max_each
              lens_radii eff_rad0).2.1.getD j 0 ∧
        (calc_lens_set delta beam_fwhm size_fwhm n_max max_each lens_radii
            eff_rad0).2.2.1.getD j 0
          = beam_fwhm (tuple_config eff_rad0 lens_radii t) ∧
        (calc_lens_set delta beam_fwhm size_fwhm n_max max_each lens_radii
            eff_rad0).2.2.2.getD j 0
          = calc_focal_length delta (tuple_config eff_rad0 lens_radii t) := by
  intro j hj
  have inv := searchInv_lens_search delta beam_fwhm eff_rad0 lens_radii
    n_max max_each
  obtain ⟨i, hi, he1, he2, he3, he4⟩ := calc_lens_set_index_spec delta
    beam_fwhm size_fwhm n_max max_each lens_radii eff_rad0 j hj
  obtain ⟨t, ht, h1, h2, h3, h4, h5⟩ := inv.scored i hi
  refine ⟨t, ht, h1, h2, ?_, ?_, ?_⟩
  · rw [he2]
    exact h3
  · rw [he3]
    exact h4
  · rw [he4]
    exact h5

/-- Witness for the amended C2 at a concrete input. -/
theorem calc_lens_set_scored_same_key_witness :
    ∃ t, t ∈ enumCounts 1 ([(1 : ℚ), 2]).length ∧ t.sum ≤ 25 ∧
      0 < t.sum ∧
      teff_rad none [(1 : ℚ), 2] t
        = (calc_lens_set (1/2) (calc_focal_length (1/2)) 0 25 1
            [(1 : ℚ), 2] none).2.1.getD 0 0 ∧
      (calc_lens_set (1/2) (calc_focal_length (1/2)) 0 25 1
          [(1 : ℚ), 2] none).2.2.1.getD 0 0
        = calc_focal_length (1/2) (tuple_config none [(1 : ℚ), 2] t) ∧
      (calc_lens_set (1/2) (calc_focal_length (1/2)) 0 25 1
          [(1 : ℚ), 2] none).2.2.2.getD 0 0
        = calc_focal_length (1/2) (tuple_config none [(1 : ℚ), 2] t) :=
  calc_lens_set_scored_same_key (1/2) (calc_focal_length (1/2)) 0 25 1
    [(1 : ℚ), 2] none 0 (by with_unfolding_all decide)

/-- Claim C2 counterexample: on the radii `cexRadii`, the rounded keys of
`[0, 1, 1]` (total 2 lenses, exact effective radius 1) and `[1, 0, 0]`
(total 1 lens, exact effective radius `1 + 1e-7`) collide, so `[1, 0, 0]`
replaces the stored set, but the stored focal length remains the one
computed from `[0, 1, 1]`'s configuration: the returned `foc_lens` entry of
the retained set `[1, 0, 0]` is `1`, not `calc_focal_length` of its own
configuration (`1 + 1e-7`). -/
theorem calc_lens_set_stale_score_counterexample :
    ¬ ∀ j, j < (calc_lens_set (1/2) cexBF 0 25 1 cexRadii none).1.length →
      (calc_lens_set (1/2) cexBF 0 25 1 cexRadii none).2.2.2.getD j 0
        = calc_focal_length (1/2) (tuple_config none cexRadii
            ((calc_lens_set (1/2) cexBF 0 25 1 cexRadii none).1.getD j [])) := by
  intro hall
  have h2 := hall 2 (by rw [cexRet]; decide)
  rw [cexRet] at h2
  have hL : (([[1, 1, 1], [1, 0, 1], [1, 0, 0], [0, 0, 1]],
      ([1/2, 666667/1000000, 1, 2] : List ℚ),
      ([10000001/20000001, 20000002/30000001, 1, 2] : List ℚ),
      ([10000001/20000001, 20000002/30000001, 1, 2] : List ℚ))).2.2.2.getD 2 0
      = (1 : ℚ) := rfl
  have hR : calc_focal_length (1/2) (tuple_config none cexRadii
      (([[1, 1, 1], [1, 0, 1], [1, 0, 0], [0, 0, 1]],
        ([1/2, 666667/1000000, 1, 2] : List ℚ),
        ([10000001/20000001, 20000002/30000001, 1, 2] : List ℚ),
        ([10000001/20000001, 20000002/30000001, 1, 2] : List ℚ)).1.getD 2 []))
      = 10000001/10000000 := by
    with_unfolding_all rfl
  rw [hL, hR] at h2
  exact absurd h2 (by norm_num)

/-- Claim C3: the four arrays returned by `calc_lens_set` are reordered by
one and the same permutation of the accumulator indices, and the absolute
deviations `|size - size_fwhm|` are nondecreasing along the returned sizes
array. -/
theorem calc_lens_set_common_sort (delta : ℚ)
    (beam_fwhm : List (Option ℚ) → ℚ) (size_fwhm : ℚ)
    (n_max max_each : ℕ) (lens_radii : List ℚ) (eff_rad0 : Option ℚ) :
    ∃ p : List ℕ,
      p.Perm (List.range (lens_search delta beam_fwhm eff_rad0 lens_radii
        n_max max_each).sizes.length)
      ∧ (calc_lens_set delta beam_fwhm size_fwhm n_max max_each lens_radii
          eff_rad0).1
        = p.map (fun i => (lens_search delta beam_fwhm eff_rad0 lens_radii
            n_max max_each).sets.getD i [])
      ∧ (calc_lens_set delta beam_fwhm size_fwhm n_max max_each lens_radii
          eff_rad0).2.1
        = p.map (fun i => (lens_search delta beam_fwhm eff_rad0 lens_radii
            n_max max_each).eff_rads.getD i 0)
      ∧ (calc_lens_set delta beam_fwhm size_fwhm n_max max_each lens_radii
          eff_rad0).2.2.1
        = p.map (fun i => (lens_search delta beam_fwhm eff_rad0 lens_radii
            n_max max_each).sizes.getD i 0)
      ∧ (calc_lens_set delta beam_fwhm size_fwhm n_max max_each lens_radii
          eff_rad0).2.2.2
        = p.map (fun i => (lens_search delta beam_fwhm eff_rad0 lens_radii
            n_max max_each).foc_lens.getD i 0)
      ∧ List.Sorted (fun a b => a ≤ b)
          ((calc_lens_set delta beam_fwhm size_fwhm n_max max_each
            lens_radii eff_rad0).2.2.1.map (fun x => |x - size_fwhm|)) := by
  refine ⟨argsortKeys ((lens_search delta beam_fwhm eff_rad0 lens_radii
    n_max max_each).sizes.map (fun x => |x - size_fwhm|)), ?_, rfl, rfl,
    rfl, rfl, ?_⟩
  · have hp := argsortKeys_perm ((lens_search delta beam_fwhm eff_rad0
      lens_radii n_max max_each).sizes.map (fun x => |x - size_fwhm|))
    rw [List.length_map] at hp
    exact hp
  · rw [calc_lens_set_eq, List.map_map]
    have hmc : ((argsortKeys ((lens_search delta beam_fwhm eff_rad0
        lens_radii n_max max_each).sizes.map
          (fun x => |x - size_fwhm|))).map
        ((fun x => |x - size_fwhm|) ∘ (fun i => (lens_search delta beam_fwhm
          eff_rad0 lens_radii n_max max_each).sizes.getD i 0)))
        = (argsortKeys ((lens_search delta beam_fwhm eff_rad0 lens_radii
            n_max max_each).sizes.map (fun x => |x - size_fwhm|))).map
          (fun i => ((lens_search delta beam_fwhm eff_rad0 lens_radii n_max
            max_each).sizes.map (fun x => |x - size_fwhm|)).getD i 0) := by
      refine List.map_congr_left ?_
      intro i hi
      have hlt := argsortKeys_mem_lt _ hi
      rw [List.length_map] at hlt
      simp only [Function.comp]
      rw [getD_map_lt (fun x => |x - size_fwhm|) _ 0 0 hlt]
    rw [hmc]
    exact List.pairwise_map.mpr (argsortKeys_pairwise _)

/-- Claim C4: every count tuple retained by `calc_lens_set` satisfies the
enumeration caps (per-radius count at most `max_each`, one slot per radius,
total count between 1 and `n_max`), and every reported size was scored from
the configuration of a tuple satisfying those caps: no tuple violating the
caps is ever scored or returned. -/
theorem calc_lens_set_caps (delta : ℚ)
    (beam_fwhm : List (Option ℚ) → ℚ) (size_fwhm : ℚ)
    (n_max max_each : ℕ) (lens_radii : List ℚ) (eff_rad0 : Option ℚ) :
    (∀ j, j < (calc_lens_set delta beam_fwhm size_fwhm n_max max_each
        lens_radii eff_rad0).1.length →
      ((calc_lens_set delta beam_fwhm size_fwhm n_max max_each lens_radii
          eff_rad0).1.getD j []).length = lens_radii.length
      ∧ (∀ c ∈ (calc_lens_set delta beam_fwhm size_fwhm n_max max_each
          lens_radii eff_rad0).1.getD j [], c ≤ max_each)
      ∧ 1 ≤ ((calc_lens_set delta beam_fwhm size_fwhm n_max max_each
          lens_radii eff_rad0).1.getD j []).sum
      ∧ ((calc_lens_set delta beam_fwhm size_fwhm n_max max_each lens_radii
          eff_rad0).1.getD j []).sum ≤ n_max)
    ∧ (∀ j, j < (calc_lens_set delta beam_fwhm size_fwhm n_max max_each
        lens_radii eff_rad0).1.length →
      ∃ t, t.length = lens_radii.length ∧ (∀ c ∈ t, c ≤ max_each) ∧
        1 ≤ t.sum ∧ t.sum ≤ n_max ∧
        (calc_lens_set delta beam_fwhm size_fwhm n_max max_each lens_radii
            eff_rad0).2.2.1.getD j 0
          = beam_fwhm (tuple_config eff_rad0 lens_radii t)) := by
  have inv := searchInv_lens_search delta beam_fwhm eff_rad0 lens_radii
    n_max max_each
  constructor
  · intro j hj
    obtain ⟨i, hi, he1, he2, he3, he4⟩ := calc_lens_set_index_spec delta
      beam_fwhm size_fwhm n_max max_each lens_radii eff_rad0 j hj
    obtain ⟨hmem, hsum1, hsum2, hkey⟩ := inv.mem_sets i hi
    obtain ⟨hlen, hbound⟩ := mem_enumCounts.mp hmem
    rw [he1]
    exact ⟨hlen, hbound, hsum2, hsum1⟩
  · intro j hj
    obtain ⟨i, hi, he1, he2, he3, he4⟩ := calc_lens_set_index_spec delta
      beam_fwhm size_fwhm n_max max_each lens_radii eff_rad0 j hj
    obtain ⟨t, ht, h1, h2, h3, h4, h5⟩ := inv.scored i hi
    obtain ⟨hlen, hbound⟩ := mem_enumCounts.mp ht
    refine ⟨t, hlen, hbound, h2, h1, ?_⟩
    rw [he3]
    exact h4

/-- Witness for C4 at a concrete input. -/
theorem calc_lens_set_caps_witness :
    ((calc_lens_set (1/2) (calc_focal_length (1/2)) 0 25 1
        [(1 : ℚ), 2] none).1.getD 0 []).length = ([(1 : ℚ), 2]).length
    ∧ (∀ c ∈ (calc_lens_set (1/2) (calc_focal_length (1/2)) 0 25 1
        [(1 : ℚ), 2] none).1.getD 0 [], c ≤ 1)
    ∧ 1 ≤ ((calc_lens_set (1/2) (calc_focal_length (1/2)) 0 25 1
        [(1 : ℚ), 2] none).1.getD 0 []).sum
    ∧ ((calc_lens_set (1/2) (calc_focal_length (1/2)) 0 25 1
        [(1 : ℚ), 2] none).1.getD 0 []).sum ≤ 25 :=
  (calc_lens_set_caps (1/2) (calc_focal_length (1/2)) 0 25 1
      [(1 : ℚ), 2] none).1 0 (by with_unfolding_all decide)

end BeLensCalcs
